import Mathlib

/-!
Verification of src/writing_a_wav_file.py.

The repository consists of a single Python module defining one function:

  def writeWAVE(fname, data):
      file = wave.open(fname, 'wb')
      nChannels = 1
      sampleWidth = 2
      frameRate = 44100
      nFrames = 44100
      file.setparams((nChannels, sampleWidth, frameRate, nFrames,
                      'NONE', 'noncompressed'))
      file.writeframes(data)
      file.close()

The module contains no import statement, so the free name wave on the first
line of the body is resolved against the module globals and the Python
builtins, and that lookup fails with a NameError before any file is opened.
The embedding below models the module as written: a state (filesystem, open
OS handles, set of unwritable paths), the Python name-resolution step, the
behaviour of the external stdlib wave library (its Wave_write objects, as
the body would use them were the name bound), and writeWAVE itself as a
function from a state and arguments to a final state plus an outcome.
-/

/-- Errors a call can surface: a Python NameError for an unbound name, an
OSError from the platform I/O layer, and the wave module error type. -/
inductive PyError
  | nameError (name : String)
  | osError (msg : String)
  | waveError (msg : String)
  deriving DecidableEq, Repr

/-- Outcome of evaluating a statement or call: a value, or a raised
exception that propagates. -/
inductive PyResult (α : Type)
  | ok (v : α)
  | raised (e : PyError)
  deriving DecidableEq, Repr

/-- The world a call runs against: the filesystem (path to file bytes),
the set of paths with a live OS-level handle, and the paths the platform
refuses to open for writing (invalid or permission-denied). -/
structure PyState where
  files : List (String × List Nat)
  openHandles : List String
  unwritable : List String
  deriving DecidableEq, Repr

/-- Bytes currently stored at a path, if a file exists there. -/
def lookupFile (st : PyState) (fname : String) : Option (List Nat) :=
  (st.files.find? (fun p => p.fst == fname)).map Prod.snd

/-- Replace (or create) the file at a path with the given bytes. -/
def setFile (files : List (String × List Nat)) (fname : String)
    (bytes : List Nat) : List (String × List Nat) :=
  (fname, bytes) :: files.filter (fun p => p.fst != fname)

/-- Top-level names bound by the module src/writing_a_wav_file.py: it
contains the single definition writeWAVE and no import statement. -/
def moduleGlobals : List String := ["writeWAVE"]

/-- A selection of the Python builtin names consulted when a name is not
found in the module globals. The stdlib module name wave is not a builtin;
it enters a namespace only through an import statement, which this module
lacks. -/
def pythonBuiltins : List String :=
  ["abs", "bool", "bytes", "float", "int", "len", "list", "max", "min",
   "open", "print", "range", "str"]

/-- Whether a free name resolves in the module, per the Python name lookup
order: module globals, then builtins. -/
def resolvesName (n : String) : Bool :=
  moduleGlobals.contains n || pythonBuiltins.contains n

/-- The Python name-resolution primitive: an unbound name raises NameError
at the point of use. -/
def resolveName (n : String) : PyResult Unit :=
  if resolvesName n then .ok () else .raised (.nameError n)

/-- Parameter tuple of a Wave_write object, as set by setparams:
(nchannels, sampwidth, framerate, nframes, comptype, compname). -/
structure WaveParams where
  nchannels : Nat
  sampwidth : Nat
  framerate : Nat
  nframes : Nat
  comptype : String
  compname : String
  deriving DecidableEq, Repr

/-- A Wave_write object of the stdlib wave library: the path it writes to,
the parameters once set, and the raw sample bytes written so far. -/
structure WaveWrite where
  path : String
  params : Option WaveParams
  datawritten : List Nat
  deriving DecidableEq, Repr

/-- Little-endian 16-bit encoding of a natural number, as bytes. -/
def u16le (n : Nat) : List Nat := [n % 256, n / 256 % 256]

/-- Little-endian 32-bit encoding of a natural number, as bytes. -/
def u32le (n : Nat) : List Nat :=
  [n % 256, n / 256 % 256, n / 65536 % 256, n / 16777216 % 256]

/-- The bytes of an ASCII tag such as RIFF, WAVE, fmt and data. -/
def asciiBytes (s : String) : List Nat := s.toList.map Char.toNat

/-- The 44-byte canonical RIFF/WAVE PCM header the wave library leaves on
disk for an uncompressed file, after the close-time patch that rewrites the
frame count and chunk sizes from the bytes actually written. -/
def waveHeaderBytes (p : WaveParams) (datalen : Nat) : List Nat :=
  asciiBytes "RIFF" ++ u32le (36 + datalen) ++ asciiBytes "WAVE" ++
  asciiBytes "fmt " ++ u32le 16 ++ u16le 1 ++ u16le p.nchannels ++
  u32le p.framerate ++ u32le (p.framerate * p.nchannels * p.sampwidth) ++
  u16le (p.nchannels * p.sampwidth) ++ u16le (8 * p.sampwidth) ++
  asciiBytes "data" ++ u32le datalen

/-- Model of wave.open(fname, "wb") from the external stdlib wave library:
opening a writable path truncates or creates the file, registers a live OS
handle and yields a fresh Wave_write object; an unwritable path makes the
underlying platform open call raise an OSError. -/
def waveOpenWb (st : PyState) (fname : String) :
    PyState × PyResult WaveWrite :=
  if st.unwritable.contains fname then
    (st, .raised (.osError ("Permission denied: " ++ fname)))
  else
    ({ files := setFile st.files fname [],
       openHandles := fname :: st.openHandles,
       unwritable := st.unwritable },
     .ok { path := fname, params := none, datawritten := [] })

/-- Model of Wave_write.setparams from the external stdlib wave library:
records the parameter tuple on the object, rejecting a zero channel count,
an unsupported sample width and any compression type other than NONE. -/
def waveSetparams (w : WaveWrite) (nchannels sampwidth framerate nframes : Nat)
    (comptype compname : String) : PyResult WaveWrite :=
  if comptype != "NONE" then
    .raised (.waveError "unsupported compression type")
  else if nchannels == 0 then
    .raised (.waveError "bad # of channels")
  else if sampwidth == 0 || 4 < sampwidth then
    .raised (.waveError "bad sample width")
  else
    let p : WaveParams :=
      { nchannels := nchannels, sampwidth := sampwidth,
        framerate := framerate, nframes := nframes,
        comptype := comptype, compname := compname }
    .ok { w with params := some p }

/-- Model of Wave_write.writeframes from the external stdlib wave library:
with parameters set it appends the sample bytes after the header on disk
(the header is patched so the declared data-chunk length always matches the
bytes written so far); without parameters it raises the wave error. -/
def waveWriteframes (st : PyState) (w : WaveWrite) (data : List Nat) :
    PyState × PyResult WaveWrite :=
  match w.params with
  | none => (st, .raised (.waveError "# channels not specified"))
  | some p =>
    let written := w.datawritten ++ data
    ({ st with files :=
         setFile st.files w.path (waveHeaderBytes p written.length ++ written) },
     .ok { w with datawritten := written })

/-- Model of Wave_write.close from the external stdlib wave library:
releases the OS handle for the path. -/
def waveClose (st : PyState) (w : WaveWrite) : PyState × PyResult Unit :=
  ({ st with openHandles := st.openHandles.erase w.path }, .ok ())

/-- Embedding of writeWAVE from src/writing_a_wav_file.py. Each branch
mirrors one statement of the body; a raised exception short-circuits the
rest of the body, exactly as in the source, which contains no handler. The
first step of the line file = wave.open(fname, "wb") is the resolution of
the free name wave. -/
def writeWAVE (st : PyState) (fname : String) (data : List Nat) :
    PyState × PyResult Unit :=
  match resolveName "wave" with
  | .raised e => (st, .raised e)
  | .ok _ =>
    match waveOpenWb st fname with
    | (st, .raised e) => (st, .raised e)
    | (st, .ok file) =>
      let nChannels := 1
      let sampleWidth := 2
      let frameRate := 44100
      let nFrames := 44100
      match waveSetparams file nChannels sampleWidth frameRate nFrames
          "NONE" "noncompressed" with
      | .raised e => (st, .raised e)
      | .ok file =>
        match waveWriteframes st file data with
        | (st, .raised e) => (st, .raised e)
        | (st, .ok file) =>
          waveClose st file

/-- An empty world: no files, no open handles, every path writable. -/
def st0 : PyState := { files := [], openHandles := [], unwritable := [] }

/-- A world in which out.wav already holds the two bytes 9, 9. -/
def stPre : PyState :=
  { files := [("out.wav", [9, 9])], openHandles := [], unwritable := [] }

/-- A world in which the platform refuses to open locked.wav for writing. -/
def stLocked : PyState :=
  { files := [], openHandles := [], unwritable := ["locked.wav"] }

/-- A world in which same.wav holds the byte 0. -/
def stA : PyState :=
  { files := [("same.wav", [0])], openHandles := [], unwritable := [] }

/-- A world in which same.wav holds the byte 255. -/
def stB : PyState :=
  { files := [("same.wav", [255])], openHandles := [], unwritable := [] }

/-- The name wave does not resolve in this module, so its lookup raises
NameError. Shared evaluation fact about the first step of writeWAVE. -/
theorem resolveName_wave :
    resolveName "wave" = PyResult.raised (PyError.nameError "wave") := by
  decide

/-- Every call of writeWAVE fails the name lookup of wave immediately:
the outcome is NameError and the state, filesystem and handles included,
is returned untouched. Shared helper for the claims below. -/
theorem writeWAVE_run (st : PyState) (fname : String) (data : List Nat) :
    writeWAVE st fname data = (st, PyResult.raised (PyError.nameError "wave")) := by
  simp [writeWAVE, resolveName_wave]

/-- Claim C3: for every state, path and sample buffer, the call raises a
NameError before performing any file operation, because the module
references the name wave without importing or defining it. The final state
equals the initial state, so no file was opened, written or created. -/
theorem writeWAVE_c3_raises_nameError (st : PyState) (fname : String)
    (data : List Nat) :
    writeWAVE st fname data = (st, PyResult.raised (PyError.nameError "wave")) :=
  writeWAVE_run st fname data

/-- Claim C6: any failure raised inside writeWAVE reaches the caller
unmodified; the body contains no handler, no wrapping and no retry. The
outcome of the whole call is byte-for-byte the outcome reported by the
failing primitive, here the resolution of the name wave. -/
theorem writeWAVE_c6_error_unmodified (st : PyState) (fname : String)
    (data : List Nat) :
    (writeWAVE st fname data).snd = resolveName "wave" := by
  rw [writeWAVE_run, resolveName_wave]

/-- Claim C9: no open handle outlives a call of writeWAVE: on every
execution the set of open OS handles after the call equals the set before
it. This holds because the NameError on line 4 precedes wave.open, so no
handle is ever acquired inside the call. -/
theorem writeWAVE_c9_no_handle_outlives (st : PyState) (fname : String)
    (data : List Nat) :
    (writeWAVE st fname data).fst.openHandles = st.openHandles := by
  rw [writeWAVE_run]

/-- Claim C1, evaluated at the failing input writeWAVE out.wav [0, 0] on an
empty filesystem: the call raises NameError and leaves no file at the
path, so no file whose header declares 1 channel, 16-bit samples and a
44100 Hz rate is produced, contrary to the claim. -/
theorem writeWAVE_c1_no_file_with_header :
    lookupFile (writeWAVE st0 "out.wav" [0, 0]).fst "out.wav" = none ∧
    (writeWAVE st0 "out.wav" [0, 0]).snd
      = PyResult.raised (PyError.nameError "wave") := by
  decide

/-- Claim C2, evaluated at the failing input writeWAVE data.wav [4, 5, 6, 7]
on an empty filesystem: the call raises NameError and leaves no file at the
path, so no written payload exists whose byte length could equal the
4-byte input buffer, contrary to the claim. -/
theorem writeWAVE_c2_no_payload :
    lookupFile (writeWAVE st0 "data.wav" [4, 5, 6, 7]).fst "data.wav" = none ∧
    (writeWAVE st0 "data.wav" [4, 5, 6, 7]).snd
      = PyResult.raised (PyError.nameError "wave") := by
  decide

/-- Claim C4, evaluated at a filesystem where out.wav already holds the
bytes 9, 9: after writeWAVE out.wav [1, 2] followed by
writeWAVE out.wav [3, 4] the file still holds its pre-existing bytes 9, 9,
so the second call neither truncates nor overwrites the previous file with
the output for [3, 4]; both calls raise NameError, contrary to the claim
that the second call overwrites the file. -/
theorem writeWAVE_c4_no_overwrite :
    lookupFile (writeWAVE (writeWAVE stPre "out.wav" [1, 2]).fst
      "out.wav" [3, 4]).fst "out.wav" = some [9, 9] ∧
    (writeWAVE (writeWAVE stPre "out.wav" [1, 2]).fst "out.wav" [3, 4]).snd
      = PyResult.raised (PyError.nameError "wave") := by
  decide

/-- Claim C5, evaluated at the failing input writeWAVE locked.wav [1] where
the platform refuses to open locked.wav for writing: the call raises
NameError, not the underlying OSError the platform open would report for
that path, contrary to the claim that the underlying error surfaces. -/
theorem writeWAVE_c5_wrong_error :
    (writeWAVE stLocked "locked.wav" [1]).snd
      = PyResult.raised (PyError.nameError "wave") ∧
    PyError.nameError "wave"
      ≠ PyError.osError ("Permission denied: " ++ "locked.wav") := by
  decide

/-- Claim C7, evaluated at the failing input writeWAVE tone.wav with a
6-byte buffer (3 frames) on an empty filesystem: the call raises NameError
and produces no output file, so no frame-count parameter, nominal 44100 or
otherwise, is ever declared for an output file, contrary to the claim. -/
theorem writeWAVE_c7_no_declared_frame_count :
    lookupFile (writeWAVE st0 "tone.wav" [1, 2, 3, 4, 5, 6]).fst
      "tone.wav" = none ∧
    (writeWAVE st0 "tone.wav" [1, 2, 3, 4, 5, 6]).snd
      = PyResult.raised (PyError.nameError "wave") := by
  decide

/-- Claim C8, evaluated at the failing input writeWAVE pcm.wav [7, 8] on an
empty filesystem: no call succeeds and no file is written, so no
uncompressed PCM RIFF/WAVE container with compression type NONE and
noncompressed is ever produced, contrary to the claim. -/
theorem writeWAVE_c8_no_riff_container :
    lookupFile (writeWAVE st0 "pcm.wav" [7, 8]).fst "pcm.wav" = none ∧
    (writeWAVE st0 "pcm.wav" [7, 8]).snd
      = PyResult.raised (PyError.nameError "wave") := by
  decide

/-- Claim C10, evaluated at two states that differ only in the bytes
already stored at same.wav: after calling writeWAVE with the same path
same.wav and the same buffer [5] in both, the contents at the path differ,
because each call raises NameError and leaves the pre-existing file in
place; so the resulting contents depend on the prior state and not only on
the pair of path and data, contrary to the claim. -/
theorem writeWAVE_c10_depends_on_prior_state :
    lookupFile (writeWAVE stA "same.wav" [5]).fst "same.wav"
      ≠ lookupFile (writeWAVE stB "same.wav" [5]).fst "same.wav" := by
  decide
